import Mathlib

/-!
# ResQLink — shallow embedding of the request store and HTTP facade

This file embeds the two source files of the ResQLink repository:

* `src/database.py` — the `Database` class: a SQLite-backed store with the
  tables `help_requests`, `region_alerts` and `emergency_contacts` created by
  `init_db`, and the operations `add_request`, `get_all_requests`,
  `get_request_by_id`, `update_request_status`, `cleanup_old_requests` and
  `get_affected_regions`.
* `src/app.py` — the Flask facade with its own SQLAlchemy model `HelpRequest`
  (id, name, contact, location, category, description, people_affected,
  status, timestamp — note: no district/state columns) and the handlers
  `submit_request` and `resolve_request`.

Stores are modelled as explicit states (lists of rows plus the autoincrement
counter); SQL statements become pure functions on those states.  SQLite's
`NOT NULL` column constraints of `init_db`'s schema are checked at insert
time, exactly on the columns the schema declares `NOT NULL` and the `INSERT`
of `add_request` leaves unset (`district`, `state`).  Timestamps are a single
integer clock (seconds); `ORDER BY timestamp DESC` becomes sorting by `≥` on
that clock; a day is 86400 seconds.
-/

/-- A row of the `help_requests` table of `init_db` (src/database.py lines
31-48).  `district`, `state`, `pincode`, `latitude`, `longitude` are kept as
`Option String` because the `INSERT` of `add_request` does not set them (the
first two are declared `NOT NULL`, the last three are nullable). The columns
that every code path sets to a non-NULL value are plain `String`/`Int`. -/
structure HRow where
  id : Nat
  name : String
  contact : String
  location : String
  district : Option String
  state : Option String
  pincode : Option String
  latitude : Option String
  longitude : Option String
  category : String
  description : String
  people_affected : Int
  status : String
  timestamp : Int
deriving Repr, DecidableEq

/-- A row of the `region_alerts` table of `init_db` (src/database.py lines 51-62). -/
structure AlertRow where
  id : Nat
  district : String
  state : String
  alert_type : String
  severity : String
  description : Option String
  timestamp : Int
  status : String
deriving Repr, DecidableEq

/-- A row of the `emergency_contacts` table of `init_db` (src/database.py lines 65-75). -/
structure ContactRow where
  id : Nat
  name : String
  phone : String
  district : String
  state : String
  category : String
  is_active : Bool
deriving Repr, DecidableEq

/-- The persistent state of the `Database` of src/database.py: the three
tables and the autoincrement counter for `help_requests.id`. -/
structure DBState where
  help_requests : List HRow
  next_id : Nat
  region_alerts : List AlertRow
  emergency_contacts : List ContactRow
deriving Repr, DecidableEq

/-- The dictionary-shaped input `request_data` of `Database.add_request` /
the JSON body of `POST /api/submit`: each key may be absent (`none`). -/
structure RequestData where
  name : Option String
  contact : Option String
  location : Option String
  category : Option String
  description : Option String
  people_affected : Option Int
  status : Option String
deriving Repr, DecidableEq

/-- Python truthiness test used by the validation loops
(`if not request_data.get(field)` / `if not data.get(field)`): a field is
missing when the key is absent or its value is the empty string. -/
def strFalsy : Option String → Bool
  | none => true
  | some s => s == ""

/-- `required_fields` — the same list, in the same order, in
src/database.py line 100 and src/app.py line 70. -/
def requiredFields : List String :=
  ["name", "contact", "location", "category", "description"]

/-- `request_data.get(field)` for the five required field names. -/
def fieldValue (d : RequestData) : String → Option String
  | "name" => d.name
  | "contact" => d.contact
  | "location" => d.location
  | "category" => d.category
  | "description" => d.description
  | _ => none

/-- The first field the validation loop rejects: the loop raises on the
first `field` in `required_fields` with `not request_data.get(field)`. -/
def firstMissingField (d : RequestData) : Option String :=
  requiredFields.find? (fun f => strFalsy (fieldValue d f))

/-- Errors of the store layer: `ValueError("Missing required field: …")`
from the validation loop, and `sqlite3.IntegrityError` ("NOT NULL constraint
failed: help_requests.<column>") from an INSERT that violates the schema. -/
inductive DBErr where
  | validationError (field : String)
  | integrityError (column : String)
deriving Repr, DecidableEq

/-- The row the `INSERT` of `Database.add_request` (src/database.py lines
111-126) attempts: the eight listed columns get the validated values,
`people_affected` and `status` their `.get(…, default)` fallbacks, and every
column the statement does not name — `district`, `state`, `pincode`,
`latitude`, `longitude` — is left NULL. -/
def attemptedRow (d : RequestData) (now : Int) (newId : Nat) : HRow :=
  { id := newId
    name := d.name.getD ""
    contact := d.contact.getD ""
    location := d.location.getD ""
    district := none
    state := none
    pincode := none
    latitude := none
    longitude := none
    category := d.category.getD ""
    description := d.description.getD ""
    people_affected := d.people_affected.getD 1
    status := d.status.getD "pending"
    timestamp := now }

/-- SQLite's `NOT NULL` check on the columns of `help_requests` that
`add_request`'s INSERT leaves unset: `district` and `state` are declared
`NOT NULL` with no default (src/database.py lines 37-38), and SQLite reports
the first violated column. -/
def rowNotNullViolation (r : HRow) : Option String :=
  if r.district.isNone then some "district"
  else if r.state.isNone then some "state"
  else none

/-- `Database.add_request` (src/database.py lines 86-136): validate the five
required fields in order, then run the INSERT; the pair carries the returned
id or the raised error, together with the store after the call. -/
def add_request (d : RequestData) (now : Int) (s : DBState) :
    Except DBErr Nat × DBState :=
  match firstMissingField d with
  | some f => (Except.error (DBErr.validationError f), s)
  | none =>
      let r := attemptedRow d now s.next_id
      match rowNotNullViolation r with
      | some c => (Except.error (DBErr.integrityError c), s)
      | none =>
          (Except.ok s.next_id,
           { s with help_requests := s.help_requests ++ [r]
                    next_id := s.next_id + 1 })

/-- The empty store right after `init_db` on a fresh file. -/
def emptyDB : DBState :=
  { help_requests := [], next_id := 1, region_alerts := [], emergency_contacts := [] }

/-- A fully valid submission (every required field present and non-empty),
as in the spec's worked example. -/
def exampleSubmission : RequestData :=
  { name := some "A", contact := some "123", location := some "X"
    category := some "flood", description := some "d"
    people_affected := none, status := none }

/-- C1: the claim says `addRequest` persists exactly one row and returns the
new id for every record with all five required fields non-empty.  The code
cannot: `init_db` declares `district` and `state` `NOT NULL` with no default,
and the INSERT of `add_request` never sets them, so once validation passes
the INSERT itself fails with a NOT NULL constraint violation.  First
conjunct: evaluated at a concrete fully valid record on the fresh store, the
call raises `IntegrityError` on column `district` and stores nothing.
Second conjunct: for every input, clock and store, `add_request` leaves the
store unchanged and never returns an id. -/
theorem add_request_always_fails :
    (add_request exampleSubmission 0 emptyDB
      = (Except.error (DBErr.integrityError "district"), emptyDB)) ∧
    (∀ d now s, (add_request d now s).2 = s ∧
      ∀ i, (add_request d now s).1 ≠ Except.ok i) := by
  refine ⟨rfl, fun d now s => ?_⟩
  unfold add_request
  cases h : firstMissingField d with
  | some f => exact ⟨rfl, fun i hi => by simp at hi⟩
  | none => exact ⟨rfl, fun i hi => by simp [attemptedRow, rowNotNullViolation] at hi⟩

/-- One equality filter of `get_all_requests` (src/database.py lines
157-166): the code adds the `WHERE` clause only under Python truthiness
(`if category:` / `if status:`), so an absent argument or the empty string
means no filter; otherwise the clause is `column = value`. -/
def matchFilter (f : Option String) (v : String) : Bool :=
  match f with
  | none => true
  | some c => if c == "" then true else v == c

/-- The combined `WHERE` clause of `get_all_requests`: both filters joined
with `AND`. -/
def rowMatches (category status : Option String) (r : HRow) : Bool :=
  matchFilter category r.category && matchFilter status r.status

/-- `ORDER BY timestamp DESC`: row `a` may come before row `b` when
`b.timestamp ≤ a.timestamp`. -/
def tsDesc (a b : HRow) : Prop := b.timestamp ≤ a.timestamp

instance : DecidableRel tsDesc := fun a b =>
  inferInstanceAs (Decidable (b.timestamp ≤ a.timestamp))

instance : IsTotal HRow tsDesc := ⟨fun a b => le_total b.timestamp a.timestamp⟩

instance : IsTrans HRow tsDesc := ⟨fun _ _ _ h1 h2 => le_trans h2 h1⟩

/-- The row set of the SELECT of `get_all_requests` (src/database.py lines
153-171): filter by the supplied clauses, then `ORDER BY timestamp DESC`. -/
def selectRequests (category status : Option String) (s : DBState) : List HRow :=
  List.insertionSort tsDesc (s.help_requests.filter (rowMatches category status))

/-- The dictionary shape `get_all_requests` and `get_request_by_id` return
per row (src/database.py lines 176-186 and 214-224): the nine listed keys;
`district`, `state`, `pincode`, `latitude`, `longitude` are dropped. -/
structure RequestDict where
  id : Nat
  name : String
  contact : String
  location : String
  category : String
  description : String
  people_affected : Int
  status : String
  timestamp : Int
deriving Repr, DecidableEq

/-- The per-row dictionary conversion of src/database.py lines 176-186. -/
def toDict (r : HRow) : RequestDict :=
  { id := r.id, name := r.name, contact := r.contact, location := r.location
    category := r.category, description := r.description
    people_affected := r.people_affected, status := r.status
    timestamp := r.timestamp }

/-- `Database.get_all_requests` (src/database.py lines 138-194). -/
def get_all_requests (category status : Option String) (s : DBState) :
    List RequestDict :=
  (selectRequests category status s).map toDict

/-- `Database.get_request_by_id` (src/database.py lines 196-231):
`SELECT * FROM help_requests WHERE id = ?`, first row or `None`. -/
def get_request_by_id (rid : Nat) (s : DBState) : Option RequestDict :=
  (s.help_requests.find? (fun r => r.id == rid)).map toDict

/-- The effect of `UPDATE help_requests SET status = ? WHERE id = ?` on one
row: the status is assigned on a row matched by the WHERE clause, any other
row is untouched. -/
def setStatusRow (rid : Nat) (status : String) (r : HRow) : HRow :=
  if r.id == rid then { r with status := status } else r

/-- `Database.update_request_status` (src/database.py lines 233-260):
`UPDATE help_requests SET status = ? WHERE id = ?`; the Boolean is
`cursor.rowcount > 0`, i.e. whether some row matched the WHERE clause. -/
def update_request_status (rid : Nat) (status : String) (s : DBState) :
    Bool × DBState :=
  (s.help_requests.any (fun r => r.id == rid),
   { s with help_requests := s.help_requests.map (setStatusRow rid status) })

/-- `Database.cleanup_old_requests` (src/database.py lines 262-284):
`DELETE FROM help_requests WHERE datetime(timestamp) < datetime('now', '-<days> days')`,
with a day of 86400 seconds on the model's single clock. -/
def cleanup_old_requests (days : Nat) (now : Int) (s : DBState) : DBState :=
  { s with help_requests :=
      s.help_requests.filter (fun r => !(decide (r.timestamp < now - (days : Int) * 86400))) }

/-- The `WHERE status = 'pending'` rows of `get_affected_regions`
(src/database.py line 336). -/
def pendingRows (s : DBState) : List HRow :=
  s.help_requests.filter (fun r => r.status == "pending")

/-- The `GROUP BY district, state` key of a row (src/database.py line 337). -/
def regionKey (r : HRow) : Option String × Option String :=
  (r.district, r.state)

/-- The pending rows of one `(district, state)` group. -/
def regionGroup (s : DBState) (k : Option String × Option String) : List HRow :=
  (pendingRows s).filter (fun r => decide (regionKey r = k))

/-- One result row of `get_affected_regions`: `district`, `state`,
`COUNT(*) as request_count` and `GROUP_CONCAT(DISTINCT category) as
categories` (modelled as the list of distinct categories). -/
structure RegionEntry where
  district : Option String
  state : Option String
  request_count : Nat
  categories : List String
deriving Repr, DecidableEq

/-- The aggregate row of one group of `get_affected_regions`. -/
def regionEntryOf (s : DBState) (k : Option String × Option String) : RegionEntry :=
  { district := k.1, state := k.2
    request_count := (regionGroup s k).length
    categories := ((regionGroup s k).map (fun r => r.category)).dedup }

/-- `Database.get_affected_regions` (src/database.py lines 326-342): group
the pending rows by `(district, state)` and aggregate each group. -/
def get_affected_regions (s : DBState) : List RegionEntry :=
  (((pendingRows s).map regionKey).dedup).map (regionEntryOf s)

/-!
## The HTTP facade of src/app.py

`app.py` defines its own SQLAlchemy model `HelpRequest` (lines 20-29) with
columns id, name, contact, location, category, description, people_affected,
status, timestamp — no district/state — and handles `POST /api/submit` and
`POST /api/resolve_request/<id>` against it.
-/

/-- A row of the facade's `HelpRequest` model (src/app.py lines 20-29). -/
structure AppRow where
  id : Nat
  name : String
  contact : String
  location : String
  category : String
  description : String
  people_affected : Int
  status : String
  timestamp : Int
deriving Repr, DecidableEq

/-- The facade's store: the `HelpRequest` rows and the autoincrement id. -/
structure AppState where
  rows : List AppRow
  next_id : Nat
deriving Repr, DecidableEq

/-- The JSON responses of the facade: 201 `{message, request_id}`,
200 `{message, request_id}`, 400 `{error}`, 500 `{error}` from an
`except Exception` block, and the 404 of the registered
`@app.errorhandler(404)` (src/app.py lines 176-180, reached only for
unmatched routes — see `resolve_request` below). -/
inductive ApiResp where
  | created (request_id : Nat)
  | ok (request_id : Nat)
  | badRequest (error : String)
  | serverError (error : String)
  | notFound
deriving Repr, DecidableEq

/-- `submit_request` (src/app.py lines 64-102): reject with 400 on the first
required field failing truthiness; otherwise persist a row with
`people_affected = int(data.get('people_affected', 1))`, `status='pending'`
and the current time, and answer 201 with the new id. -/
def submit_request (d : RequestData) (now : Int) (s : AppState) :
    ApiResp × AppState :=
  match firstMissingField d with
  | some f => (ApiResp.badRequest ("Missing required field: " ++ f), s)
  | none =>
      let r : AppRow :=
        { id := s.next_id
          name := d.name.getD ""
          contact := d.contact.getD ""
          location := d.location.getD ""
          category := d.category.getD ""
          description := d.description.getD ""
          people_affected := d.people_affected.getD 1
          status := "pending"
          timestamp := now }
      (ApiResp.created s.next_id,
       { rows := s.rows ++ [r], next_id := s.next_id + 1 })

/-- The mutation of `resolve_request` on one row: the fetched request gets
`status = 'resolved'` (src/app.py line 135), every other row is untouched. -/
def resolveRow (rid : Nat) (r : AppRow) : AppRow :=
  if r.id == rid then { r with status := "resolved" } else r

/-- `resolve_request` (src/app.py lines 131-148): for a known id the
request's status becomes `resolved` and the handler answers 200 with the id.
For an unknown id, `query.get_or_404` raises werkzeug's `NotFound` — a
subclass of `Exception` — inside the handler's `try`, so the handler's own
`except Exception` block (lines 143-148) catches it, rolls back, and answers
500 `{'error': 'Internal server error'}`; the 404 error handler is never
reached and the store is unchanged. -/
def resolve_request (rid : Nat) (s : AppState) : ApiResp × AppState :=
  if s.rows.any (fun r => r.id == rid) then
    (ApiResp.ok rid, { s with rows := s.rows.map (resolveRow rid) })
  else
    (ApiResp.serverError "Internal server error", s)

/-- The empty facade store. -/
def emptyApp : AppState := { rows := [], next_id := 1 }

/-!
## The claims
-/

/-- C3: a submission in which some required field is absent or empty fails:
the facade answers 400 with a "Missing required field" error and persists no
row, and the store layer raises `ValueError` before touching the database,
so both stores are exactly as before the call. -/
theorem missing_field_rejected (d : RequestData) (now : Int) (s : AppState)
    (t : DBState) (h : ∃ f ∈ requiredFields, strFalsy (fieldValue d f) = true) :
    (∃ g, (submit_request d now s).1
        = ApiResp.badRequest ("Missing required field: " ++ g)) ∧
    (submit_request d now s).2 = s ∧
    (∃ g, (add_request d now t).1 = Except.error (DBErr.validationError g)) ∧
    (add_request d now t).2 = t := by
  have hf : (firstMissingField d).isSome := by
    rw [firstMissingField, List.find?_isSome]
    obtain ⟨f, hmem, hp⟩ := h
    exact ⟨f, hmem, hp⟩
  obtain ⟨g, hg⟩ := Option.isSome_iff_exists.mp hf
  exact ⟨⟨g, by simp [submit_request, hg]⟩, by simp [submit_request, hg],
         ⟨g, by simp [add_request, hg]⟩, by simp [add_request, hg]⟩

/-- The spec's own example of an invalid submission: `contact` is empty. -/
def missingContactSubmission : RequestData :=
  { exampleSubmission with contact := some "" }

/-- C3 witness: the rejection evaluated at the concrete submission whose
`contact` is the empty string, on the empty stores. -/
theorem missing_field_rejected_witness :
    (∃ g, (submit_request missingContactSubmission 0 emptyApp).1
        = ApiResp.badRequest ("Missing required field: " ++ g)) ∧
    (submit_request missingContactSubmission 0 emptyApp).2 = emptyApp ∧
    (∃ g, (add_request missingContactSubmission 0 emptyDB).1
        = Except.error (DBErr.validationError g)) ∧
    (add_request missingContactSubmission 0 emptyDB).2 = emptyDB :=
  missing_field_rejected missingContactSubmission 0 emptyApp emptyDB
    ⟨"contact", by decide, by decide⟩

/-- A submission whose `people_affected` value is 0. -/
def zeroPeopleSubmission : RequestData :=
  { exampleSubmission with people_affected := some 0 }

/-- C2 counterexample: the facade accepts a submission carrying
`people_affected = 0` — all five required fields are present — and persists
the row with `people_affected = 0`, which is not ≥ 1: the code never checks
the supplied value. -/
theorem submit_accepts_people_affected_zero :
    (submit_request zeroPeopleSubmission 7 emptyApp).1 = ApiResp.created 1 ∧
    (submit_request zeroPeopleSubmission 7 emptyApp).2.rows.map
        (fun r => r.people_affected) = [0] ∧
    ¬(1 ≤ (0 : Int)) :=
  ⟨rfl, rfl, by decide⟩

/-- C2 (amended): `people_affected` defaults to 1 — hence is ≥ 1 — when the
field is absent from the submission; when the field is supplied, the value is
stored exactly as given, with no ≥ 1 check. -/
theorem submit_people_affected_default (d : RequestData) (now : Int)
    (s : AppState) (i : Nat) (h : (submit_request d now s).1 = ApiResp.created i) :
    ∃ r ∈ (submit_request d now s).2.rows,
      r.id = i ∧ r.people_affected = d.people_affected.getD 1 ∧
      (d.people_affected = none → 1 ≤ r.people_affected) := by
  cases hm : firstMissingField d with
  | some f => simp [submit_request, hm] at h
  | none =>
      simp only [submit_request, hm] at h ⊢
      have hi : s.next_id = i := by simpa using h
      refine ⟨_, List.mem_append.mpr (Or.inr (List.mem_singleton.mpr rfl)), hi, rfl, ?_⟩
      intro hnone
      simp [hnone]

/-- C2 witness: the default evaluated at the concrete submission with no
`people_affected` field, on the empty facade store. -/
theorem submit_people_affected_default_witness :
    ∃ r ∈ (submit_request exampleSubmission 3 emptyApp).2.rows,
      r.id = 1 ∧ r.people_affected = exampleSubmission.people_affected.getD 1 ∧
      (exampleSubmission.people_affected = none → 1 ≤ r.people_affected) :=
  submit_people_affected_default exampleSubmission 3 emptyApp 1 rfl

/-- A stored request of category "medical". -/
def medicalRow : HRow :=
  { id := 1, name := "A", contact := "123", location := "X"
    district := some "D1", state := some "S1"
    pincode := none, latitude := none, longitude := none
    category := "medical", description := "d", people_affected := 1
    status := "pending", timestamp := 100 }

/-- A store holding only `medicalRow`. -/
def medicalDB : DBState :=
  { help_requests := [medicalRow], next_id := 2
    region_alerts := [], emergency_contacts := [] }

/-- C4 counterexample: with the supplied filter value `category = ""` the
query returns the stored row whose category is `"medical"`, not only records
whose category is exactly the given string — the `if category:` truthiness
test drops an empty-string filter, so no `WHERE` clause is emitted. -/
theorem empty_category_filter_ignored :
    selectRequests (some "") none medicalDB = [medicalRow] ∧
    get_all_requests (some "") none medicalDB = [toDict medicalRow] ∧
    medicalRow.category ≠ "" :=
  ⟨rfl, rfl, by decide⟩

/-- C4 (amended): for every store and every combination of the optional
filters, the result of `get_all_requests` holds exactly the stored rows
matched by `rowMatches` — equality on category and on status, each applied
only when the argument is supplied and non-empty (Python truthiness),
combined with AND — ordered by timestamp descending; with no filters it is a
permutation of all records; and the returned dictionaries are the projection
`toDict` of those rows. -/
theorem get_all_requests_spec (category status : Option String) (s : DBState) :
    (∀ r, r ∈ selectRequests category status s ↔
        r ∈ s.help_requests ∧ rowMatches category status r = true) ∧
    List.Sorted tsDesc (selectRequests category status s) ∧
    (selectRequests none none s).Perm s.help_requests ∧
    get_all_requests category status s = (selectRequests category status s).map toDict := by
  refine ⟨fun r => ?_, List.sorted_insertionSort tsDesc _, ?_, rfl⟩
  · rw [selectRequests, List.mem_insertionSort, List.mem_filter]
  · have h1 : s.help_requests.filter (rowMatches none none) = s.help_requests :=
      List.filter_eq_self.mpr (fun a _ => rfl)
    rw [selectRequests, h1]
    exact List.perm_insertionSort tsDesc _

/-- `resolveRow` keeps the row's id. -/
theorem resolveRow_id (rid : Nat) (r : AppRow) : (resolveRow rid r).id = r.id := by
  unfold resolveRow; split <;> rfl

/-- Applying `resolveRow` twice is applying it once. -/
theorem resolveRow_idem (rid : Nat) (r : AppRow) :
    resolveRow rid (resolveRow rid r) = resolveRow rid r := by
  by_cases hc : r.id == rid
  · simp [resolveRow, hc]
  · simp [resolveRow, hc]

/-- `setStatusRow` keeps the row's id. -/
theorem setStatusRow_id (rid : Nat) (st : String) (r : HRow) :
    (setStatusRow rid st r).id = r.id := by
  unfold setStatusRow; split <;> rfl

/-- Applying `setStatusRow` twice is applying it once. -/
theorem setStatusRow_idem (rid : Nat) (st : String) (r : HRow) :
    setStatusRow rid st (setStatusRow rid st r) = setStatusRow rid st r := by
  by_cases hc : r.id == rid
  · simp [setStatusRow, hc]
  · simp [setStatusRow, hc]

/-- C5: resolving an existing request is idempotent.  The first call answers
200; the second call answers 200 again and leaves the store exactly as the
first call left it; after resolving, the request's status is "resolved"; if
the request's status is already "resolved", resolving changes no state at
all; and at the store layer a second `update_request_status(id, 'resolved')`
still reports `true` and does not change the store further. -/
theorem resolve_request_idempotent (rid : Nat) (s : AppState) (t : DBState)
    (h : ∃ r ∈ s.rows, r.id = rid) :
    (resolve_request rid s).1 = ApiResp.ok rid ∧
    resolve_request rid (resolve_request rid s).2
      = (ApiResp.ok rid, (resolve_request rid s).2) ∧
    (∀ r ∈ (resolve_request rid s).2.rows, r.id = rid → r.status = "resolved") ∧
    ((∀ r ∈ s.rows, r.id = rid → r.status = "resolved") →
      (resolve_request rid s).2 = s) ∧
    ((∃ r ∈ t.help_requests, r.id = rid) →
      update_request_status rid "resolved" (update_request_status rid "resolved" t).2
        = (true, (update_request_status rid "resolved" t).2)) := by
  obtain ⟨r0, hr0, hid0⟩ := h
  have hany : s.rows.any (fun r => r.id == rid) = true :=
    List.any_eq_true.mpr ⟨r0, hr0, by simp [hid0]⟩
  have hres : resolve_request rid s
      = (ApiResp.ok rid, { s with rows := s.rows.map (resolveRow rid) }) := by
    simp [resolve_request, hany]
  refine ⟨by rw [hres], ?_, ?_, ?_, ?_⟩
  · have hany2 : (s.rows.map (resolveRow rid)).any (fun r => r.id == rid) = true :=
      List.any_eq_true.mpr ⟨resolveRow rid r0, List.mem_map_of_mem _ hr0,
        by simp [resolveRow_id, hid0]⟩
    rw [hres]
    simp only [resolve_request, hany2, if_true]
    have hcomp : List.map (resolveRow rid ∘ resolveRow rid) s.rows
        = List.map (resolveRow rid) s.rows :=
      List.map_congr_left (fun a _ => resolveRow_idem rid a)
    rw [List.map_map, hcomp]
  · rw [hres]
    intro r hr hidr
    obtain ⟨a, ha, rfl⟩ := List.mem_map.mp hr
    by_cases hc : a.id == rid
    · simp [resolveRow, hc]
    · have hida : a.id = rid := (resolveRow_id rid a).symm.trans hidr
      exact absurd (by simp [hida]) hc
  · intro hall
    rw [hres]
    have hmap : s.rows.map (resolveRow rid) = s.rows := by
      rw [List.map_congr_left (g := id) ?_, List.map_id]
      intro a ha
      by_cases hc : a.id == rid
      · have hst : a.status = "resolved" := hall a ha (by simpa using hc)
        simp only [resolveRow, hc, if_true, id]
        rw [← hst]
      · simp [resolveRow, hc]
    rw [hmap]
  · rintro ⟨r1, hr1, hid1⟩
    have hany3 : (t.help_requests.map (setStatusRow rid "resolved")).any
        (fun r => r.id == rid) = true :=
      List.any_eq_true.mpr ⟨setStatusRow rid "resolved" r1, List.mem_map_of_mem _ hr1,
        by simp [setStatusRow_id, hid1]⟩
    simp only [update_request_status] at hany3 ⊢
    rw [hany3]
    have hcomp : List.map (setStatusRow rid "resolved" ∘ setStatusRow rid "resolved")
        t.help_requests = List.map (setStatusRow rid "resolved") t.help_requests :=
      List.map_congr_left (fun a _ => setStatusRow_idem rid "resolved" a)
    rw [List.map_map, hcomp]

/-- A request already marked resolved. -/
def resolvedRow : HRow := { medicalRow with id := 2, status := "resolved" }

/-- A store holding only `resolvedRow`. -/
def resolvedDB : DBState :=
  { help_requests := [resolvedRow], next_id := 3
    region_alerts := [], emergency_contacts := [] }

/-- A stored facade row with id 1 and status "pending". -/
def exAppRow : AppRow :=
  { id := 1, name := "A", contact := "123", location := "X"
    category := "flood", description := "d", people_affected := 1
    status := "pending", timestamp := 0 }

/-- A facade store holding only `exAppRow`. -/
def exApp : AppState := { rows := [exAppRow], next_id := 2 }

/-- C5 witness: idempotence evaluated at the concrete store holding request 1. -/
theorem resolve_request_idempotent_witness :
    (resolve_request 1 exApp).1 = ApiResp.ok 1 ∧
    resolve_request 1 (resolve_request 1 exApp).2
      = (ApiResp.ok 1, (resolve_request 1 exApp).2) :=
  ⟨(resolve_request_idempotent 1 exApp medicalDB ⟨exAppRow, by decide, rfl⟩).1,
   (resolve_request_idempotent 1 exApp medicalDB ⟨exAppRow, by decide, rfl⟩).2.1⟩

/-- C6: the store-layer half of the claim is true of the code, the HTTP half
is not.  First two conjuncts: for an id that no stored request carries,
`update_request_status` reports `false` (no row matched by `rowcount`) and
changes nothing, for every status value and store.  Third conjunct: the
resolve endpoint never answers 404 for an unknown id — `get_or_404` raises
`NotFound`, a subclass of `Exception`, which the handler's own
`except Exception` catches, answering 500 `{'error': 'Internal server
error'}` with the store unchanged.  Fourth conjunct: no input at all makes
the endpoint answer 404.  Last two conjuncts: both evaluated at the concrete
unknown id 99 against the concrete stores. -/
theorem unknown_id_update_false_endpoint_500 :
    (∀ rid (st : String) (t : DBState), (∀ r ∈ t.help_requests, r.id ≠ rid) →
        update_request_status rid st t = (false, t)) ∧
    (∀ rid (s : AppState), (∀ r ∈ s.rows, r.id ≠ rid) →
        resolve_request rid s = (ApiResp.serverError "Internal server error", s)) ∧
    (∀ rid (s : AppState), (resolve_request rid s).1 ≠ ApiResp.notFound) ∧
    update_request_status 99 "resolved" medicalDB = (false, medicalDB) ∧
    resolve_request 99 exApp = (ApiResp.serverError "Internal server error", exApp) := by
  refine ⟨fun rid st t h1 => ?_, fun rid s h2 => ?_, fun rid s => ?_, by decide, by decide⟩
  · have hany : t.help_requests.any (fun r => r.id == rid) = false :=
      List.any_eq_false.mpr (fun r hr => by simpa using h1 r hr)
    have hmap : t.help_requests.map (setStatusRow rid st) = t.help_requests := by
      rw [List.map_congr_left (g := id) ?_, List.map_id]
      intro a ha
      simp [setStatusRow, h1 a ha]
    simp only [update_request_status, hany, hmap]
  · have hany2 : s.rows.any (fun r => r.id == rid) = false :=
      List.any_eq_false.mpr (fun r hr => by simpa using h2 r hr)
    simp [resolve_request, hany2]
  · rw [resolve_request]
    split <;> simp

/-- C7: `update_request_status` validates nothing about the status value:
for every existing id and every string — also values outside
{pending, resolved} and backward transitions — it reports `true` and the
request's stored status afterwards is exactly the given string. -/
theorem update_status_unrestricted (rid : Nat) (st : String) (t : DBState)
    (h : ∃ r ∈ t.help_requests, r.id = rid) :
    (update_request_status rid st t).1 = true ∧
    ∀ r ∈ (update_request_status rid st t).2.help_requests,
      r.id = rid → r.status = st := by
  obtain ⟨r0, hr0, hid0⟩ := h
  refine ⟨List.any_eq_true.mpr ⟨r0, hr0, by simp [hid0]⟩, ?_⟩
  intro r hr hidr
  simp only [update_request_status] at hr
  obtain ⟨a, ha, rfl⟩ := List.mem_map.mp hr
  by_cases hc : a.id == rid
  · simp [setStatusRow, hc]
  · have hida : a.id = rid := (setStatusRow_id rid st a).symm.trans hidr
    exact absurd (by simp [hida]) hc

/-- C7 witness: the backward transition resolved → pending evaluated at the
store whose only request (id 2) is already resolved. -/
theorem update_status_unrestricted_witness :
    (update_request_status 2 "pending" resolvedDB).1 = true ∧
    ∀ r ∈ (update_request_status 2 "pending" resolvedDB).2.help_requests,
      r.id = 2 → r.status = "pending" :=
  update_status_unrestricted 2 "pending" resolvedDB ⟨resolvedRow, by decide, rfl⟩

/-- C8: `cleanup_old_requests days` keeps a stored request exactly when its
timestamp does not predate `now − days` (first conjunct, for arbitrary
stores, clocks, and day counts); with `days = 0` it deletes every request
created strictly before `now`; and when `days` exceeds the age of every
stored request it deletes nothing, leaving the store equal to itself. -/
theorem cleanup_old_requests_spec (days : Nat) (now : Int) (s : DBState) :
    (∀ r, r ∈ (cleanup_old_requests days now s).help_requests ↔
        r ∈ s.help_requests ∧ ¬(r.timestamp < now - (days : Int) * 86400)) ∧
    ((∀ r ∈ s.help_requests, r.timestamp < now) →
      (cleanup_old_requests 0 now s).help_requests = []) ∧
    ((∀ r ∈ s.help_requests, now - r.timestamp < (days : Int) * 86400) →
      cleanup_old_requests days now s = s) := by
  refine ⟨fun r => ?_, fun hall => ?_, fun hnew => ?_⟩
  · rw [cleanup_old_requests]
    simp [List.mem_filter]
  · rw [cleanup_old_requests]
    simp only [List.filter_eq_nil_iff]
    intro a ha
    have h1 := hall a ha
    simp
    omega
  · rw [cleanup_old_requests]
    have hkeep : s.help_requests.filter
        (fun r => !(decide (r.timestamp < now - (days : Int) * 86400)))
        = s.help_requests := by
      rw [List.filter_eq_self]
      intro a ha
      have h2 : ¬(a.timestamp < now - (days : Int) * 86400) := by
        have h3 := hnew a ha
        omega
      simp [h2]
    rw [hkeep]

/-- A `(district, state)` pair appears among the grouped keys exactly when
some stored request with that district and state is pending. -/
theorem regionKey_mem_dedup (s : DBState) (d st : Option String) :
    (d, st) ∈ ((pendingRows s).map regionKey).dedup ↔
      ∃ r ∈ s.help_requests, r.status = "pending" ∧ r.district = d ∧ r.state = st := by
  rw [List.mem_dedup, List.mem_map]
  constructor
  · rintro ⟨r, hr, hk⟩
    rw [pendingRows, List.mem_filter] at hr
    obtain ⟨hmem, hp⟩ := hr
    exact ⟨r, hmem, by simpa using hp,
      congrArg Prod.fst hk, congrArg Prod.snd hk⟩
  · rintro ⟨r, hmem, hp, hd, hst⟩
    refine ⟨r, List.mem_filter.mpr ⟨hmem, by simp [hp]⟩, ?_⟩
    rw [regionKey, hd, hst]

/-- C9: `get_affected_regions` has an entry for a `(district, state)` pair
exactly when the pair has a pending request; the entries' keys are free of
duplicates; each entry's count is the size of its pending group and its
category list is duplicate-free and holds exactly the categories of the
pair's pending requests; and the result computed from only the pending rows
is the same, so requests with any other status contribute to no entry. -/
theorem get_affected_regions_spec (s : DBState) :
    (∀ d st, (∃ e ∈ get_affected_regions s, e.district = d ∧ e.state = st) ↔
        ∃ r ∈ s.help_requests, r.status = "pending" ∧ r.district = d ∧ r.state = st) ∧
    ((get_affected_regions s).map (fun e => (e.district, e.state))).Nodup ∧
    (∀ e ∈ get_affected_regions s,
      e.request_count = (regionGroup s (e.district, e.state)).length ∧
      e.categories.Nodup ∧
      (∀ c, c ∈ e.categories ↔ ∃ r ∈ s.help_requests,
          r.status = "pending" ∧ r.district = e.district ∧ r.state = e.state ∧
          r.category = c)) ∧
    get_affected_regions { s with help_requests := pendingRows s }
      = get_affected_regions s := by
  refine ⟨fun d st => ?_, ?_, fun e he => ?_, ?_⟩
  · constructor
    · rintro ⟨e, he, hd, hst⟩
      rw [get_affected_regions, List.mem_map] at he
      obtain ⟨k, hk, rfl⟩ := he
      have hke : k = (d, st) := by
        cases k
        simp only [regionEntryOf] at hd hst
        simp [hd, hst]
      rw [← regionKey_mem_dedup s d st]
      rwa [hke] at hk
    · intro hr
      have hk := (regionKey_mem_dedup s d st).mpr hr
      refine ⟨regionEntryOf s (d, st), ?_, rfl, rfl⟩
      rw [get_affected_regions, List.mem_map]
      exact ⟨(d, st), hk, rfl⟩
  · rw [get_affected_regions, List.map_map]
    have hcomp : List.map ((fun e : RegionEntry => (e.district, e.state)) ∘ regionEntryOf s)
        (((pendingRows s).map regionKey).dedup)
        = List.map id (((pendingRows s).map regionKey).dedup) :=
      List.map_congr_left (fun a _ => rfl)
    rw [hcomp, List.map_id]
    exact List.nodup_dedup _
  · rw [get_affected_regions, List.mem_map] at he
    obtain ⟨k, hk, rfl⟩ := he
    refine ⟨rfl, List.nodup_dedup _, fun c => ?_⟩
    show c ∈ ((regionGroup s k).map (fun r => r.category)).dedup ↔ _
    rw [List.mem_dedup, List.mem_map]
    constructor
    · rintro ⟨r, hr, rfl⟩
      rw [regionGroup, List.mem_filter] at hr
      obtain ⟨hrp, hrk⟩ := hr
      rw [pendingRows, List.mem_filter] at hrp
      obtain ⟨hmem, hp⟩ := hrp
      have hkeq : regionKey r = k := of_decide_eq_true hrk
      exact ⟨r, hmem, by simpa using hp,
        congrArg Prod.fst hkeq, congrArg Prod.snd hkeq, rfl⟩
    · rintro ⟨r, hmem, hp, hd, hst, hc⟩
      refine ⟨r, ?_, hc⟩
      rw [regionGroup, List.mem_filter]
      refine ⟨List.mem_filter.mpr ⟨hmem, by simp [hp]⟩, ?_⟩
      have hkeq : regionKey r = k := by
        cases k
        simp only [regionEntryOf] at hd hst
        simp [regionKey, hd, hst]
      simp [hkeq]
  · have hpend : pendingRows { s with help_requests := pendingRows s } = pendingRows s := by
      simp [pendingRows, List.filter_filter]
    have hgroup : ∀ k, regionGroup { s with help_requests := pendingRows s } k
        = regionGroup s k := by
      intro k; rw [regionGroup, regionGroup, hpend]
    have hentry : ∀ k, regionEntryOf { s with help_requests := pendingRows s } k
        = regionEntryOf s k := by
      intro k; rw [regionEntryOf, regionEntryOf, hgroup]
    rw [get_affected_regions, get_affected_regions, hpend]
    exact List.map_congr_left (fun k _ => hentry k)

/-- C10: `update_request_status` touches at most the status of the rows the
WHERE clause matches: the alerts table, the contacts table and the id
counter are unchanged, the help-request rows keep their number and order,
every row keeps every field other than status (id, name, contact, location,
district, state, pincode, latitude, longitude, category, description,
people_affected, timestamp), and a row whose id differs from the given one
keeps its status too. -/
theorem update_status_frame (rid : Nat) (st : String) (t : DBState) :
    (update_request_status rid st t).2.region_alerts = t.region_alerts ∧
    (update_request_status rid st t).2.emergency_contacts = t.emergency_contacts ∧
    (update_request_status rid st t).2.next_id = t.next_id ∧
    (update_request_status rid st t).2.help_requests.length = t.help_requests.length ∧
    ∀ i (h1 : i < t.help_requests.length)
        (h2 : i < (update_request_status rid st t).2.help_requests.length),
      ((update_request_status rid st t).2.help_requests.get ⟨i, h2⟩).id
          = (t.help_requests.get ⟨i, h1⟩).id ∧
      ((update_request_status rid st t).2.help_requests.get ⟨i, h2⟩).name
          = (t.help_requests.get ⟨i, h1⟩).name ∧
      ((update_request_status rid st t).2.help_requests.get ⟨i, h2⟩).contact
          = (t.help_requests.get ⟨i, h1⟩).contact ∧
      ((update_request_status rid st t).2.help_requests.get ⟨i, h2⟩).location
          = (t.help_requests.get ⟨i, h1⟩).location ∧
      ((update_request_status rid st t).2.help_requests.get ⟨i, h2⟩).district
          = (t.help_requests.get ⟨i, h1⟩).district ∧
      ((update_request_status rid st t).2.help_requests.get ⟨i, h2⟩).state
          = (t.help_requests.get ⟨i, h1⟩).state ∧
      ((update_request_status rid st t).2.help_requests.get ⟨i, h2⟩).pincode
          = (t.help_requests.get ⟨i, h1⟩).pincode ∧
      ((update_request_status rid st t).2.help_requests.get ⟨i, h2⟩).latitude
          = (t.help_requests.get ⟨i, h1⟩).latitude ∧
      ((update_request_status rid st t).2.help_requests.get ⟨i, h2⟩).longitude
          = (t.help_requests.get ⟨i, h1⟩).longitude ∧
      ((update_request_status rid st t).2.help_requests.get ⟨i, h2⟩).category
          = (t.help_requests.get ⟨i, h1⟩).category ∧
      ((update_request_status rid st t).2.help_requests.get ⟨i, h2⟩).description
          = (t.help_requests.get ⟨i, h1⟩).description ∧
      ((update_request_status rid st t).2.help_requests.get ⟨i, h2⟩).people_affected
          = (t.help_requests.get ⟨i, h1⟩).people_affected ∧
      ((update_request_status rid st t).2.help_requests.get ⟨i, h2⟩).timestamp
          = (t.help_requests.get ⟨i, h1⟩).timestamp ∧
      ((t.help_requests.get ⟨i, h1⟩).id ≠ rid →
        ((update_request_status rid st t).2.help_requests.get ⟨i, h2⟩).status
            = (t.help_requests.get ⟨i, h1⟩).status) := by
  refine ⟨rfl, rfl, rfl, by simp [update_request_status], fun i h1 h2 => ?_⟩
  have hmap : (update_request_status rid st t).2.help_requests.get ⟨i, h2⟩
      = setStatusRow rid st (t.help_requests.get ⟨i, h1⟩) := by
    simp [update_request_status]
  rw [hmap]
  unfold setStatusRow
  split
  case isTrue h =>
    exact ⟨rfl, rfl, rfl, rfl, rfl, rfl, rfl, rfl, rfl, rfl, rfl, rfl, rfl,
      fun hne => absurd (by simpa using h) hne⟩
  case isFalse h =>
    exact ⟨rfl, rfl, rfl, rfl, rfl, rfl, rfl, rfl, rfl, rfl, rfl, rfl, rfl,
      fun _ => rfl⟩
